import Mathlib

/-!
# Verification of the PDF flattening pipeline (`src/streamapp.py`)

Shallow embedding of the streaming rasterise-and-reassemble pipeline:

* `rasterise_streaming` — resolves the page count through the external
  toolchain (`pdfinfo_from_path`), then loops over ordinals `1..pages`,
  rendering exactly one page per iteration (`convert_from_path` with
  `first_page = last_page = p`), saving it as a JPEG, freeing the decoded
  bitmap (`del img; gc.collect()`), and reporting progress `p / pages`;
  after the loop it reports `1.0` once and returns the JPEG paths.
* `rebuild_pdf` — converts the ordered JPEG list into one PDF
  (`img2pdf.convert`) and unlinks the page files.
* `main` — rejects inputs larger than `MAX_FILE_SIZE` before any work,
  copies the upload to a temporary file, runs the pipeline inside a
  `TemporaryDirectory` (removed on scope exit, also when an exception
  propagates), catches any exception (showing an error, exposing no
  output) and finally unlinks the temporary source copy.

External collaborators (poppler via `pdf2image`, `img2pdf`, the Streamlit
widgets) are modelled by an environment `Env` recording how the toolchain
behaves on the given input: the `pdfinfo` outcome, which page renders
fail, and whether reassembly fails.  The embedding records full traces:
render calls (with their `first_page`/`last_page`/`dpi` arguments), JPEG
save calls (with `quality`), decoded-bitmap allocate/free events,
progress-callback values (as rationals), and the files existing when
control returns to the caller.
-/

namespace StreamApp

/-- `MAX_FILE_SIZE = 25_000_000` from `src/streamapp.py`. -/
def MAX_FILE_SIZE : Nat := 25000000

/-- One invocation of `convert_from_path`: the `first_page`, `last_page`
and `dpi` arguments passed to the external rasterizer. -/
structure RenderCall where
  fp : Nat
  lp : Nat
  dpi : Nat
deriving Repr, DecidableEq

/-- One invocation of `img.save(jpg, "JPEG", quality=quality)`:
the page ordinal of the file written and the `quality` argument. -/
structure SaveCall where
  ordinal : Nat
  quality : Nat
deriving Repr, DecidableEq

/-- Lifetime events of decoded bitmaps: `convert_from_path` materialises
one (`alloc p`), `del img; gc.collect()` releases it (`free p`). -/
inductive BitmapEv where
  | alloc (p : Nat)
  | free (p : Nat)
deriving Repr, DecidableEq

/-- The failure taxonomy of the spec, as surfaced by the code:
`PDFInfoNotInstalledError` (toolchain missing), any other `pdfinfo`
failure (metadata unavailable), a `convert_from_path` exception on one
ordinal (page render failure), an `img2pdf.convert` exception
(reassembly failure). -/
inductive PipelineError where
  | toolchainMissing
  | metadataUnavailable
  | pageRenderFailure (ordinal : Nat)
  | reassemblyFailure
deriving Repr, DecidableEq

/-- Outcome of `pdfinfo_from_path` on the given input. -/
inductive PdfinfoResult where
  | notInstalled
  | malformed
  | pages (n : Nat)
deriving Repr, DecidableEq

/-- Behaviour of the external toolchain on one fixed input document:
how `pdfinfo` answers, which page renders raise, and whether
`img2pdf.convert` raises. -/
structure Env where
  pdfinfoResult : PdfinfoResult
  renderFails : Nat → Bool
  convertFails : Bool

/-- Trace accumulated by `rasterise_streaming`. -/
structure RasterTrace where
  jpegPaths : List Nat
  progressCalls : List ℚ
  renderCalls : List RenderCall
  saveCalls : List SaveCall
  bitmapEvs : List BitmapEv
deriving Repr

/-- The empty trace, before the per-page loop starts. -/
def emptyTrace : RasterTrace :=
  { jpegPaths := [], progressCalls := [], renderCalls := [],
    saveCalls := [], bitmapEvs := [] }

/-- One successful iteration of the per-page loop of
`rasterise_streaming` for ordinal `p`: render page `p`
(`first_page=p, last_page=p`), save the JPEG, release the bitmap,
then (if a callback was supplied) report `p / pages`. -/
def pageStep (pages dpi quality : Nat) (hasUpdate : Bool)
    (t : RasterTrace) (p : Nat) : RasterTrace :=
  { jpegPaths := t.jpegPaths ++ [p]
    progressCalls :=
      t.progressCalls ++ (if hasUpdate then [(p : ℚ) / (pages : ℚ)] else [])
    renderCalls := t.renderCalls ++ [⟨p, p, dpi⟩]
    saveCalls := t.saveCalls ++ [⟨p, quality⟩]
    bitmapEvs := t.bitmapEvs ++ [.alloc p, .free p] }

/-- The per-page loop `for p in range(1, pages + 1)`.  Each iteration
first calls `convert_from_path` (recorded even when it raises); a raise
aborts the loop, returning the ordinal that failed. -/
def rasteriseLoop (env : Env) (pages dpi quality : Nat) (hasUpdate : Bool) :
    List Nat → RasterTrace → RasterTrace × Option Nat
  | [], t => (t, none)
  | p :: rest, t =>
      let t1 := { t with renderCalls := t.renderCalls ++ [⟨p, p, dpi⟩] }
      if env.renderFails p then
        (t1, some p)
      else
        rasteriseLoop env pages dpi quality hasUpdate rest
          { t1 with
            jpegPaths := t1.jpegPaths ++ [p]
            progressCalls := t1.progressCalls ++
              (if hasUpdate then [(p : ℚ) / (pages : ℚ)] else [])
            saveCalls := t1.saveCalls ++ [⟨p, quality⟩]
            bitmapEvs := t1.bitmapEvs ++ [.alloc p, .free p] }

/-- `rasterise_streaming(src, dpi, quality, out_dir, update)`.  Returns
the trace together with the error that propagated, if any.  On success
(`none`), `jpegPaths` is the returned list and the final `update(1.0)`
has been appended. -/
def rasterise_streaming (env : Env) (dpi quality : Nat) (hasUpdate : Bool) :
    RasterTrace × Option PipelineError :=
  match env.pdfinfoResult with
  | .notInstalled => (emptyTrace, some .toolchainMissing)
  | .malformed => (emptyTrace, some .metadataUnavailable)
  | .pages n =>
      match rasteriseLoop env n dpi quality hasUpdate (List.range' 1 n) emptyTrace with
      | (t, some p) => (t, some (.pageRenderFailure p))
      | (t, none) =>
          ({ t with progressCalls :=
              t.progressCalls ++ (if hasUpdate then [(1 : ℚ)] else []) },
           none)

/-- `rebuild_pdf(paths)`: `img2pdf.convert` lays out one output page per
input image, in list order; on success every page file is unlinked.
Returns (output page ordinals if produced, page files still on disk). -/
def rebuild_pdf (env : Env) (paths : List Nat) :
    Option (List Nat) × List Nat :=
  if env.convertFails then (none, paths) else (some paths, [])

/-- How a run of `main` ends: the upload was rejected by the size check
(`st.stop()`), an exception was caught (error shown, no download), or
the flattened PDF was offered for download. -/
inductive RunOutcome where
  | rejected
  | failed (e : PipelineError)
  | completed (output : List Nat)
deriving Repr, DecidableEq

/-- Observable result of one run of `main` on one upload: the outcome,
the files still existing when control returns to the caller (the
temporary source copy, and the spooled page JPEGs of the
`TemporaryDirectory`), whether `pdfinfo` was ever queried, and the
full render/save/progress traces. -/
structure MainResult where
  outcome : RunOutcome
  srcTmpExists : Bool
  tdFiles : List Nat
  pdfinfoQueried : Bool
  renderCalls : List RenderCall
  saveCalls : List SaveCall
  progressCalls : List ℚ
deriving Repr

/-- The output bytes exposed to the caller, if any. -/
def MainResult.output (r : MainResult) : Option (List Nat) :=
  match r.outcome with
  | .completed o => some o
  | _ => none

/-- `main()` for one uploaded file of `fileSize` bytes, with the
`dpi`/`quality` slider values.  The size check runs before any other
work; then the upload is copied to a temporary file, the pipeline runs
inside a `TemporaryDirectory` whose contents are removed when the block
exits (normally or by exception), any exception is caught and shown as
an error with no download offered, and the `finally` clause unlinks the
temporary source copy before control returns. -/
def main (env : Env) (fileSize dpi quality : Nat) : MainResult :=
  if MAX_FILE_SIZE < fileSize then
    { outcome := .rejected, srcTmpExists := false, tdFiles := [],
      pdfinfoQueried := false, renderCalls := [], saveCalls := [],
      progressCalls := [] }
  else
    match rasterise_streaming env dpi quality true with
    | (t, some e) =>
        { outcome := .failed e, srcTmpExists := false, tdFiles := [],
          pdfinfoQueried := true, renderCalls := t.renderCalls,
          saveCalls := t.saveCalls, progressCalls := t.progressCalls }
    | (t, none) =>
        match rebuild_pdf env t.jpegPaths with
        | (some pdf, _) =>
            { outcome := .completed pdf, srcTmpExists := false, tdFiles := [],
              pdfinfoQueried := true, renderCalls := t.renderCalls,
              saveCalls := t.saveCalls, progressCalls := t.progressCalls }
        | (none, _) =>
            { outcome := .failed .reassemblyFailure, srcTmpExists := false,
              tdFiles := [], pdfinfoQueried := true,
              renderCalls := t.renderCalls, saveCalls := t.saveCalls,
              progressCalls := t.progressCalls }

/-- Number of decoded bitmaps resident after a list of lifetime events
has happened, in order. -/
def liveAfter (evs : List BitmapEv) : Nat :=
  evs.foldl (fun n e => match e with | .alloc _ => n + 1 | .free _ => n - 1) 0

/-- Number of decoded bitmaps resident after the first `k` events
of the trace. -/
def liveAt (evs : List BitmapEv) (k : Nat) : Nat :=
  liveAfter (evs.take k)

/-! ## Structural lemmas about the per-page loop -/

/-- The loop processes the longest gap-free run of renderable ordinals
(`takeWhile`), folding `pageStep` over it; if a failing ordinal remains
(`dropWhile` nonempty) its render call is still issued before the raise
aborts the loop. -/
theorem rasteriseLoop_spec (env : Env) (pages dpi quality : Nat) (u : Bool) :
    ∀ (l : List Nat) (t : RasterTrace),
    rasteriseLoop env pages dpi quality u l t =
      (match l.dropWhile (fun p => !env.renderFails p) with
       | [] =>
           ((l.takeWhile (fun p => !env.renderFails p)).foldl
              (pageStep pages dpi quality u) t, none)
       | p :: _ =>
           (let t1 := (l.takeWhile (fun p => !env.renderFails p)).foldl
               (pageStep pages dpi quality u) t
            ({ t1 with renderCalls := t1.renderCalls ++ [⟨p, p, dpi⟩] }, some p))) := by
  intro l
  induction l with
  | nil => intro t; rfl
  | cons p rest ih =>
      intro t
      by_cases hp : env.renderFails p = true
      · simp [rasteriseLoop, hp, List.dropWhile_cons, List.takeWhile_cons]
      · simp only [Bool.not_eq_true] at hp
        simp only [rasteriseLoop, hp, List.dropWhile_cons, List.takeWhile_cons,
          Bool.not_false, if_true, if_false, Bool.false_eq_true, List.foldl_cons]
        rw [ih]
        rfl

/-- Folding the loop body preserves and appends `jpegPaths` in
iteration order: the buffer receives exactly the processed ordinals. -/
theorem foldl_pageStep_jpegPaths (pages dpi quality : Nat) (u : Bool) :
    ∀ (l : List Nat) (t : RasterTrace),
    (l.foldl (pageStep pages dpi quality u) t).jpegPaths = t.jpegPaths ++ l := by
  intro l
  induction l with
  | nil => intro t; simp
  | cons p rest ih => intro t; simp [ih, pageStep]

/-- Progress calls accumulated by the loop body: one call `p / pages`
per processed ordinal, in order, when a callback was supplied. -/
theorem foldl_pageStep_progress (pages dpi quality : Nat) (u : Bool) :
    ∀ (l : List Nat) (t : RasterTrace),
    (l.foldl (pageStep pages dpi quality u) t).progressCalls =
      t.progressCalls ++ (if u then l.map (fun p : Nat => (p : ℚ) / (pages : ℚ)) else []) := by
  intro l
  induction l with
  | nil => intro t; simp
  | cons p rest ih =>
      intro t
      cases u <;> simp [ih, pageStep]

/-- Render calls accumulated by the loop body: one `convert_from_path`
call per processed ordinal, with `first_page = last_page = p` and the
run's `dpi`. -/
theorem foldl_pageStep_renderCalls (pages dpi quality : Nat) (u : Bool) :
    ∀ (l : List Nat) (t : RasterTrace),
    (l.foldl (pageStep pages dpi quality u) t).renderCalls =
      t.renderCalls ++ l.map (fun p => ⟨p, p, dpi⟩) := by
  intro l
  induction l with
  | nil => intro t; simp
  | cons p rest ih => intro t; simp [ih, pageStep]

/-- Save calls accumulated by the loop body: one JPEG write per
processed ordinal, with the run's `quality`. -/
theorem foldl_pageStep_saveCalls (pages dpi quality : Nat) (u : Bool) :
    ∀ (l : List Nat) (t : RasterTrace),
    (l.foldl (pageStep pages dpi quality u) t).saveCalls =
      t.saveCalls ++ l.map (fun p => ⟨p, quality⟩) := by
  intro l
  induction l with
  | nil => intro t; simp
  | cons p rest ih => intro t; simp [ih, pageStep]

/-- Bitmap lifetime events accumulated by the loop body: each processed
ordinal allocates one decoded bitmap and frees it before the next
iteration. -/
theorem foldl_pageStep_bitmapEvs (pages dpi quality : Nat) (u : Bool) :
    ∀ (l : List Nat) (t : RasterTrace),
    (l.foldl (pageStep pages dpi quality u) t).bitmapEvs =
      t.bitmapEvs ++ l.flatMap (fun p => [.alloc p, .free p]) := by
  intro l
  induction l with
  | nil => intro t; simp
  | cons p rest ih => intro t; simp [ih, pageStep]

/-- Closed form of a fully successful `rasterise_streaming` run: the
page count resolves to `n`, every page renders, so the buffer holds the
ordinals `1..n` in order, every ordinal got one single-page render call
and one JPEG save, one bitmap was allocated and freed per ordinal, and
the progress trace is `1/n, …, n/n` followed by the final `1.0`. -/
theorem rasterise_streaming_ok (env : Env) (n dpi quality : Nat) (u : Bool)
    (hres : env.pdfinfoResult = .pages n)
    (hok : ∀ p, env.renderFails p = false) :
    rasterise_streaming env dpi quality u =
      ({ jpegPaths := List.range' 1 n,
         progressCalls :=
           if u then (List.range' 1 n).map (fun p : Nat => (p : ℚ) / (n : ℚ)) ++ [1] else [],
         renderCalls := (List.range' 1 n).map (fun p => ⟨p, p, dpi⟩),
         saveCalls := (List.range' 1 n).map (fun p => ⟨p, quality⟩),
         bitmapEvs := (List.range' 1 n).flatMap (fun p => [.alloc p, .free p]) },
       none) := by
  have hdrop : (List.range' 1 n).dropWhile (fun p => !env.renderFails p) = [] := by
    rw [List.dropWhile_eq_nil_iff]; intro a _; simp [hok a]
  have htake : (List.range' 1 n).takeWhile (fun p => !env.renderFails p) =
      List.range' 1 n := by
    rw [List.takeWhile_eq_self_iff]; intro a _; simp [hok a]
  obtain ⟨res, rf, cf⟩ := env
  simp only at hres
  subst hres
  simp only [rasterise_streaming, rasteriseLoop_spec, hdrop, htake,
    foldl_pageStep_jpegPaths, foldl_pageStep_progress,
    foldl_pageStep_renderCalls, foldl_pageStep_saveCalls,
    foldl_pageStep_bitmapEvs, emptyTrace]
  cases u <;> simp

/-- For `1 ≤ n`, the ordinal list `1..n` ends with `n`. -/
theorem getLast_range'_one (n : Nat) (h : 1 ≤ n) :
    (List.range' 1 n).getLast? = some n := by
  rw [List.getLast?_range']
  rw [if_neg (by omega)]
  congr 1
  omega

/-- **C1**: on a valid `N`-page input (`N ≥ 1`) processed with a
non-null callback and no render failure, the pipeline makes exactly `N`
per-page progress calls with the strictly increasing fractions
`p / N` for `p = 1..N`, followed by exactly one additional final call
with value `1.0`; every reported fraction lies in `[0, 1]`, the whole
call sequence is monotonically increasing (non-decreasing; the `N`-th
per-page call already equals `N/N = 1.0`), and the one final call
reports `1.0`. -/
theorem C1_progress_reporting (env : Env) (N dpi quality : Nat)
    (hN : 1 ≤ N) (hres : env.pdfinfoResult = .pages N)
    (hok : ∀ p, env.renderFails p = false) :
    (rasterise_streaming env dpi quality true).2 = none
    ∧ (rasterise_streaming env dpi quality true).1.progressCalls =
        (List.range' 1 N).map (fun p : Nat => (p : ℚ) / (N : ℚ)) ++ [1]
    ∧ ((List.range' 1 N).map (fun p : Nat => (p : ℚ) / (N : ℚ))).length = N
    ∧ ((List.range' 1 N).map (fun p : Nat => (p : ℚ) / (N : ℚ))).Chain' (· < ·)
    ∧ ((rasterise_streaming env dpi quality true).1.progressCalls).Chain' (· ≤ ·)
    ∧ (∀ x ∈ (rasterise_streaming env dpi quality true).1.progressCalls,
        0 ≤ x ∧ x ≤ 1)
    ∧ ((rasterise_streaming env dpi quality true).1.progressCalls).getLast? =
        some 1 := by
  have hNQ : (0 : ℚ) < (N : ℚ) := by exact_mod_cast hN
  have hlt : ((List.range' 1 N).map (fun p : Nat => (p : ℚ) / (N : ℚ))).Chain' (· < ·) := by
    rw [List.chain'_map]
    exact (List.Pairwise.imp
      (fun hab => (div_lt_div_iff_of_pos_right hNQ).mpr (by exact_mod_cast hab))
      (List.pairwise_lt_range' 1 N)).chain'
  have hmem : ∀ x ∈ (List.range' 1 N).map (fun p : Nat => (p : ℚ) / (N : ℚ)) ++ [(1 : ℚ)],
      0 ≤ x ∧ x ≤ 1 := by
    intro x hx
    rcases List.mem_append.mp hx with hx | hx
    · rcases List.mem_map.mp hx with ⟨p, hp, rfl⟩
      rcases List.mem_range'_1.mp hp with ⟨hp1, hp2⟩
      refine ⟨by positivity, ?_⟩
      rw [div_le_one hNQ]
      exact_mod_cast (by omega : p ≤ N)
    · simp only [List.mem_singleton] at hx
      subst hx
      norm_num
  have hle : ((List.range' 1 N).map (fun p : Nat => (p : ℚ) / (N : ℚ)) ++ [(1 : ℚ)]).Chain'
      (· ≤ ·) := by
    rw [List.chain'_append]
    refine ⟨List.Chain'.imp (fun a b hab => le_of_lt hab) hlt, by simp, ?_⟩
    intro x hx y hy
    simp only [List.head?_cons, Option.mem_def, Option.some.injEq] at hy
    subst hy
    rw [List.getLast?_map, getLast_range'_one N hN] at hx
    simp only [Option.map_some', Option.mem_def, Option.some.injEq] at hx
    rw [← hx, div_self (by positivity)]
  rw [rasterise_streaming_ok env N dpi quality true hres hok]
  refine ⟨rfl, by simp, by simp [List.length_range'], hlt, ?_, ?_, ?_⟩
  · simpa using hle
  · simpa using hmem
  · simp [List.getLast?_concat]

/-- Whatever happens, when `main` returns control the temporary source
copy has been unlinked (`finally`) and the `TemporaryDirectory` with the
spooled page JPEGs has been removed. -/
theorem main_clean (env : Env) (fileSize dpi quality : Nat) :
    (main env fileSize dpi quality).srcTmpExists = false
    ∧ (main env fileSize dpi quality).tdFiles = [] := by
  unfold main
  by_cases hs : MAX_FILE_SIZE < fileSize
  · simp [hs]
  · simp only [hs, if_false]
    rcases hr : rasterise_streaming env dpi quality true with ⟨t, err⟩
    cases err with
    | some e => simp
    | none =>
        rcases hb : rebuild_pdf env t.jpegPaths with ⟨o, rem⟩
        cases o <;> simp [hb]

/-- A `rasterise_streaming` run that returns without error resolved a
page count `n` and filled the buffer with exactly the ordinals `1..n`. -/
theorem rasterise_none_inv (env : Env) (dpi quality : Nat) (u : Bool)
    (t : RasterTrace)
    (h : rasterise_streaming env dpi quality u = (t, none)) :
    ∃ n, env.pdfinfoResult = .pages n ∧ t.jpegPaths = List.range' 1 n := by
  obtain ⟨res, rf, cf⟩ := env
  cases res with
  | notInstalled => simp [rasterise_streaming, Prod.ext_iff] at h
  | malformed => simp [rasterise_streaming, Prod.ext_iff] at h
  | pages n =>
      refine ⟨n, rfl, ?_⟩
      rcases hd : (List.range' 1 n).dropWhile
          (fun p => !(⟨.pages n, rf, cf⟩ : Env).renderFails p) with _ | ⟨p, ps⟩
      · simp only [rasterise_streaming, rasteriseLoop_spec, hd] at h
        have ht := congrArg Prod.fst h
        simp only at ht
        rw [← ht]
        simp only [foldl_pageStep_jpegPaths, emptyTrace, List.nil_append]
        have := List.takeWhile_append_dropWhile
          (fun p => !(⟨.pages n, rf, cf⟩ : Env).renderFails p) (List.range' 1 n)
        rw [hd, List.append_nil] at this
        exact this
      · simp only [rasterise_streaming, rasteriseLoop_spec, hd] at h
        exact absurd (congrArg Prod.snd h) (by simp)

/-- If `main` exposed an output, the page count had resolved to some
`n` and the exposed document is exactly the ordered ordinals `1..n`. -/
theorem main_output_inv (env : Env) (fileSize dpi quality : Nat)
    (out : List Nat)
    (h : (main env fileSize dpi quality).output = some out) :
    ∃ n, env.pdfinfoResult = .pages n ∧ out = List.range' 1 n := by
  by_cases hs : MAX_FILE_SIZE < fileSize
  · simp [main, hs, MainResult.output] at h
  · rcases hr : rasterise_streaming env dpi quality true with ⟨t, err⟩
    cases err with
    | some e =>
        simp only [main, hs, if_false, hr, MainResult.output] at h
        simp at h
    | none =>
        rcases hb : rebuild_pdf env t.jpegPaths with ⟨o, rem⟩
        cases o with
        | none =>
            simp only [main, hs, if_false, hr, hb, MainResult.output] at h
            simp at h
        | some pdf =>
            simp only [main, hs, if_false, hr, hb, MainResult.output] at h
            have hpdf : pdf = t.jpegPaths := by
              by_cases hc : env.convertFails <;> simp [rebuild_pdf, hc] at hb
              exact hb.1.symm
            rcases rasterise_none_inv env dpi quality true t hr with ⟨n, hres, hjp⟩
            refine ⟨n, hres, ?_⟩
            simp only [Option.some.injEq] at h
            rw [← h, hpdf, hjp]

/-- Along the per-page lifetime trace (one allocate immediately followed
by one free, per ordinal) at most one decoded bitmap is ever resident. -/
theorem liveAt_pairs_le_one (l : List Nat) : ∀ k,
    liveAt (l.flatMap (fun p => [BitmapEv.alloc p, BitmapEv.free p])) k ≤ 1 := by
  induction l with
  | nil => intro k; simp [liveAt, liveAfter]
  | cons p rest ih =>
      intro k
      match k with
      | 0 => simp [liveAt, liveAfter]
      | 1 => simp [liveAt, liveAfter]
      | (k + 2) =>
          have hk := ih k
          simpa [liveAt, liveAfter, List.take_succ_cons] using hk

/-- Shape of the external-call traces of any `rasterise_streaming` run:
render calls are single-page requests `⟨p, p, dpi⟩` for a list of
ordinals, JPEG saves carry the run's `quality`, and bitmap events come
in allocate/free pairs, one pair per saved page. -/
theorem rasterise_trace_shape (env : Env) (dpi quality : Nat) (u : Bool) :
    ∃ l m : List Nat,
      (rasterise_streaming env dpi quality u).1.renderCalls =
          l.map (fun p => (⟨p, p, dpi⟩ : RenderCall))
      ∧ (rasterise_streaming env dpi quality u).1.bitmapEvs =
          m.flatMap (fun p => [BitmapEv.alloc p, BitmapEv.free p])
      ∧ (rasterise_streaming env dpi quality u).1.saveCalls =
          m.map (fun p => (⟨p, quality⟩ : SaveCall)) := by
  obtain ⟨res, rf, cf⟩ := env
  cases res with
  | notInstalled => exact ⟨[], [], rfl, rfl, rfl⟩
  | malformed => exact ⟨[], [], rfl, rfl, rfl⟩
  | pages n =>
      rcases hd : (List.range' 1 n).dropWhile
          (fun p => !(⟨.pages n, rf, cf⟩ : Env).renderFails p) with _ | ⟨p, ps⟩
      · refine ⟨(List.range' 1 n).takeWhile
            (fun p => !(⟨.pages n, rf, cf⟩ : Env).renderFails p),
          (List.range' 1 n).takeWhile
            (fun p => !(⟨.pages n, rf, cf⟩ : Env).renderFails p), ?_, ?_, ?_⟩ <;>
          simp [rasterise_streaming, rasteriseLoop_spec, hd,
            foldl_pageStep_renderCalls, foldl_pageStep_bitmapEvs,
            foldl_pageStep_saveCalls, emptyTrace]
      · refine ⟨((List.range' 1 n).takeWhile
            (fun p => !(⟨.pages n, rf, cf⟩ : Env).renderFails p)) ++ [p],
          (List.range' 1 n).takeWhile
            (fun p => !(⟨.pages n, rf, cf⟩ : Env).renderFails p), ?_, ?_, ?_⟩ <;>
          simp [rasterise_streaming, rasteriseLoop_spec, hd,
            foldl_pageStep_renderCalls, foldl_pageStep_bitmapEvs,
            foldl_pageStep_saveCalls, emptyTrace]

/-- Witness for C1 at a concrete 3-page document with no failures. -/
theorem C1_progress_reporting_witness :
    (rasterise_streaming ⟨.pages 3, fun _ => false, false⟩ 200 90 true).2 = none
    ∧ (rasterise_streaming ⟨.pages 3, fun _ => false, false⟩ 200 90 true).1.progressCalls =
        (List.range' 1 3).map (fun p : Nat => (p : ℚ) / (((3 : Nat)) : ℚ)) ++ [1]
    ∧ ((List.range' 1 3).map (fun p : Nat => (p : ℚ) / (((3 : Nat)) : ℚ))).length = 3
    ∧ ((List.range' 1 3).map (fun p : Nat => (p : ℚ) / (((3 : Nat)) : ℚ))).Chain' (· < ·)
    ∧ ((rasterise_streaming ⟨.pages 3, fun _ => false, false⟩ 200 90
        true).1.progressCalls).Chain' (· ≤ ·)
    ∧ (∀ x ∈ (rasterise_streaming ⟨.pages 3, fun _ => false, false⟩ 200 90
        true).1.progressCalls, 0 ≤ x ∧ x ≤ 1)
    ∧ ((rasterise_streaming ⟨.pages 3, fun _ => false, false⟩ 200 90
        true).1.progressCalls).getLast? = some 1 :=
  C1_progress_reporting ⟨.pages 3, fun _ => false, false⟩ 3 200 90
    (by decide) rfl (fun _ => rfl)

/-- **C10**: when the resolved page count is `0` and a non-null callback
is supplied, `rasterise_streaming` performs no render, saves nothing,
makes no per-page progress call, still invokes the callback exactly once
with `1.0`, and returns the empty list of page paths. -/
theorem C10_zero_page_run (env : Env) (dpi quality : Nat)
    (hres : env.pdfinfoResult = .pages 0) :
    rasterise_streaming env dpi quality true =
      ({ jpegPaths := [], progressCalls := [1], renderCalls := [],
         saveCalls := [], bitmapEvs := [] }, none) := by
  obtain ⟨res, rf, cf⟩ := env
  simp only at hres
  subst hres
  rfl

/-- Witness for C10 at a concrete environment resolving 0 pages. -/
theorem C10_zero_page_run_witness :
    rasterise_streaming ⟨.pages 0, fun _ => false, false⟩ 200 90 true =
      ({ jpegPaths := [], progressCalls := [1], renderCalls := [],
         saveCalls := [], bitmapEvs := [] }, none) :=
  C10_zero_page_run ⟨.pages 0, fun _ => false, false⟩ 200 90 rfl

/-- **C4**: when the rendering toolchain is unavailable
(`pdfinfo_from_path` raises `PDFInfoNotInstalledError`), the run fails
with `ToolchainMissing` during page-count resolution: the per-page
rasterization call is never invoked (`renderCalls = []`), and the
`main`-level run surfaces exactly that failure. -/
theorem C4_toolchain_missing (env : Env) (fileSize dpi quality : Nat) (u : Bool)
    (hres : env.pdfinfoResult = .notInstalled)
    (hsize : fileSize ≤ MAX_FILE_SIZE) :
    rasterise_streaming env dpi quality u = (emptyTrace, some .toolchainMissing)
    ∧ (main env fileSize dpi quality).outcome = .failed .toolchainMissing
    ∧ (main env fileSize dpi quality).renderCalls = [] := by
  obtain ⟨res, rf, cf⟩ := env
  simp only at hres
  subst hres
  refine ⟨rfl, ?_, ?_⟩ <;>
    · unfold main
      rw [if_neg (not_lt.mpr hsize)]
      rfl

/-- Witness for C4 at a concrete environment with the toolchain absent. -/
theorem C4_toolchain_missing_witness :
    rasterise_streaming ⟨.notInstalled, fun _ => false, false⟩ 200 90 true =
        (emptyTrace, some .toolchainMissing)
    ∧ (main ⟨.notInstalled, fun _ => false, false⟩ 100 200 90).outcome =
        .failed .toolchainMissing
    ∧ (main ⟨.notInstalled, fun _ => false, false⟩ 100 200 90).renderCalls = [] :=
  C4_toolchain_missing ⟨.notInstalled, fun _ => false, false⟩ 100 200 90 true
    rfl (by decide)

/-- **C3**: an upload of exactly `MAX_FILE_SIZE` bytes passes the size
check and processing begins (`pdfinfo` is queried, the outcome is never
the rejection), while `MAX_FILE_SIZE + 1` bytes are rejected
(`InputRejected`, modelled by `RunOutcome.rejected`) before any
page-count resolution or rendering work, with no output. -/
theorem C3_size_boundary (env : Env) (dpi quality : Nat) :
    (main env MAX_FILE_SIZE dpi quality).pdfinfoQueried = true
    ∧ (main env MAX_FILE_SIZE dpi quality).outcome ≠ .rejected
    ∧ (main env (MAX_FILE_SIZE + 1) dpi quality).outcome = .rejected
    ∧ (main env (MAX_FILE_SIZE + 1) dpi quality).pdfinfoQueried = false
    ∧ (main env (MAX_FILE_SIZE + 1) dpi quality).renderCalls = []
    ∧ (main env (MAX_FILE_SIZE + 1) dpi quality).output = none := by
  have hyes : MAX_FILE_SIZE < MAX_FILE_SIZE + 1 := Nat.lt_succ_self _
  refine ⟨?_, ?_, ?_, ?_, ?_, ?_⟩
  · unfold main
    rw [if_neg (lt_irrefl MAX_FILE_SIZE)]
    rcases hr : rasterise_streaming env dpi quality true with ⟨t, err⟩
    cases err with
    | some e => simp [hr]
    | none =>
        rcases hb : rebuild_pdf env t.jpegPaths with ⟨o, rem⟩
        cases o <;> simp [hr, hb]
  · unfold main
    rw [if_neg (lt_irrefl MAX_FILE_SIZE)]
    rcases hr : rasterise_streaming env dpi quality true with ⟨t, err⟩
    cases err with
    | some e => simp [hr]
    | none =>
        rcases hb : rebuild_pdf env t.jpegPaths with ⟨o, rem⟩
        cases o <;> simp [hr, hb]
  · unfold main; rw [if_pos hyes]
  · unfold main; rw [if_pos hyes]
  · unfold main; rw [if_pos hyes]
  · unfold main; rw [if_pos hyes]; rfl

/-- **C2**: whenever a run of `main` fails — page-count resolution,
any page render, or reassembly — no output document is exposed to the
caller, and at the moment control returns no page artifact remains: the
spooled JPEGs are gone with the `TemporaryDirectory` and the temporary
source copy has been unlinked by the `finally` clause. -/
theorem C2_failure_cleanup (env : Env) (fileSize dpi quality : Nat)
    (e : PipelineError)
    (hfail : (main env fileSize dpi quality).outcome = .failed e) :
    (main env fileSize dpi quality).output = none
    ∧ (main env fileSize dpi quality).tdFiles = []
    ∧ (main env fileSize dpi quality).srcTmpExists = false := by
  refine ⟨?_, (main_clean env fileSize dpi quality).2,
    (main_clean env fileSize dpi quality).1⟩
  simp [MainResult.output, hfail]

/-- Witness for C2: Scenario C — page 3 of a 5-page document fails to
render; the surfaced failure is `PageRenderFailure{ordinal=3}`, no
output bytes exist, and the artifacts for pages 1–2 are released. -/
theorem C2_failure_cleanup_witness :
    (main ⟨.pages 5, fun p => p == 3, false⟩ 100 200 90).outcome =
        .failed (.pageRenderFailure 3)
    ∧ ((main ⟨.pages 5, fun p => p == 3, false⟩ 100 200 90).output = none
       ∧ (main ⟨.pages 5, fun p => p == 3, false⟩ 100 200 90).tdFiles = []
       ∧ (main ⟨.pages 5, fun p => p == 3, false⟩ 100 200 90).srcTmpExists = false) :=
  ⟨by decide, C2_failure_cleanup ⟨.pages 5, fun p => p == 3, false⟩ 100 200 90
    (.pageRenderFailure 3) (by decide)⟩

/-- On a fully successful run (page count `N`, every page renders,
reassembly succeeds, size admitted) `main` exposes exactly the ordered
ordinals `1..N` as the output document. -/
theorem main_success_output (env : Env) (N fileSize dpi quality : Nat)
    (hres : env.pdfinfoResult = .pages N)
    (hok : ∀ p, env.renderFails p = false)
    (hconv : env.convertFails = false)
    (hsize : fileSize ≤ MAX_FILE_SIZE) :
    (main env fileSize dpi quality).output = some (List.range' 1 N) := by
  unfold main
  rw [if_neg (not_lt.mpr hsize)]
  rw [rasterise_streaming_ok env N dpi quality true hres hok]
  simp [rebuild_pdf, hconv, MainResult.output]

/-- **C6**: every successful run on an `N`-page input produces an output
document with exactly `N` pages. -/
theorem C6_output_page_count (env : Env) (N fileSize dpi quality : Nat)
    (hres : env.pdfinfoResult = .pages N)
    (hok : ∀ p, env.renderFails p = false)
    (hconv : env.convertFails = false)
    (hsize : fileSize ≤ MAX_FILE_SIZE) :
    (main env fileSize dpi quality).output = some (List.range' 1 N)
    ∧ (List.range' 1 N).length = N :=
  ⟨main_success_output env N fileSize dpi quality hres hok hconv hsize,
   List.length_range' 1 1 N⟩

/-- Witness for C6 at a concrete 2-page run. -/
theorem C6_output_page_count_witness :
    (main ⟨.pages 2, fun _ => false, false⟩ 100 200 90).output =
        some (List.range' 1 2)
    ∧ (List.range' 1 2).length = 2 :=
  C6_output_page_count ⟨.pages 2, fun _ => false, false⟩ 2 100 200 90
    rfl (fun _ => rfl) rfl (by decide)

/-- **C7**: throughout a successful run the page buffer holds exactly
the ordinals `1..N` in iteration order (no duplicate, fully populated —
`size = N` — before reassembly), and the output page order equals that
ordinal order. -/
theorem C7_buffer_order (env : Env) (N fileSize dpi quality : Nat)
    (hres : env.pdfinfoResult = .pages N)
    (hok : ∀ p, env.renderFails p = false)
    (hconv : env.convertFails = false)
    (hsize : fileSize ≤ MAX_FILE_SIZE) :
    (rasterise_streaming env dpi quality true).1.jpegPaths = List.range' 1 N
    ∧ ((rasterise_streaming env dpi quality true).1.jpegPaths).Nodup
    ∧ ((rasterise_streaming env dpi quality true).1.jpegPaths).length = N
    ∧ (main env fileSize dpi quality).output =
        some ((rasterise_streaming env dpi quality true).1.jpegPaths) := by
  have hj : (rasterise_streaming env dpi quality true).1.jpegPaths =
      List.range' 1 N := by
    rw [rasterise_streaming_ok env N dpi quality true hres hok]
  refine ⟨hj, ?_, ?_, ?_⟩
  · rw [hj]; exact List.nodup_range' 1 N
  · rw [hj]; exact List.length_range' 1 1 N
  · rw [hj]
    exact main_success_output env N fileSize dpi quality hres hok hconv hsize

/-- Witness for C7 at a concrete 3-page run. -/
theorem C7_buffer_order_witness :
    (rasterise_streaming ⟨.pages 3, fun _ => false, false⟩ 200 90 true).1.jpegPaths =
        List.range' 1 3
    ∧ ((rasterise_streaming ⟨.pages 3, fun _ => false, false⟩ 200 90
        true).1.jpegPaths).Nodup
    ∧ ((rasterise_streaming ⟨.pages 3, fun _ => false, false⟩ 200 90
        true).1.jpegPaths).length = 3
    ∧ (main ⟨.pages 3, fun _ => false, false⟩ 100 200 90).output =
        some ((rasterise_streaming ⟨.pages 3, fun _ => false, false⟩ 200 90
          true).1.jpegPaths) :=
  C7_buffer_order ⟨.pages 3, fun _ => false, false⟩ 3 100 200 90
    rfl (fun _ => rfl) rfl (by decide)

/-- **C8**: every rasterization call of any run requests exactly one
page — the recorded calls are precisely `⟨p, p, dpi⟩` for the processed
ordinals, so `first_page = last_page` in each — and consequently at
most one decoded bitmap is resident at every instant of the run. -/
theorem C8_single_page_bitmap (env : Env) (dpi quality : Nat) (u : Bool) :
    (∃ l : List Nat, (rasterise_streaming env dpi quality u).1.renderCalls =
        l.map (fun p => (⟨p, p, dpi⟩ : RenderCall)))
    ∧ (∀ c ∈ (rasterise_streaming env dpi quality u).1.renderCalls, c.fp = c.lp)
    ∧ (∀ k, liveAt ((rasterise_streaming env dpi quality u).1.bitmapEvs) k ≤ 1) := by
  rcases rasterise_trace_shape env dpi quality u with ⟨l, m, hr, hb, hsv⟩
  refine ⟨⟨l, hr⟩, ?_, ?_⟩
  · intro c hc
    rw [hr] at hc
    rcases List.mem_map.mp hc with ⟨p, _, rfl⟩
    rfl
  · intro k
    rw [hb]
    exact liveAt_pairs_le_one m k

/-- **C9**: two runs on identical input bytes (hence identical toolchain
page-count resolution) with identical `dpi`/`quality` that both expose
an output expose the same page sequence — identical page count and
identical ordering — even if the two toolchains render pixels
differently or fail on different pages. -/
theorem C9_identical_runs (env1 env2 : Env) (fileSize dpi quality : Nat)
    (out1 out2 : List Nat)
    (hinfo : env1.pdfinfoResult = env2.pdfinfoResult)
    (h1 : (main env1 fileSize dpi quality).output = some out1)
    (h2 : (main env2 fileSize dpi quality).output = some out2) :
    out1 = out2 ∧ out1.length = out2.length := by
  rcases main_output_inv env1 fileSize dpi quality out1 h1 with ⟨n1, hres1, ho1⟩
  rcases main_output_inv env2 fileSize dpi quality out2 h2 with ⟨n2, hres2, ho2⟩
  have hn : PdfinfoResult.pages n1 = PdfinfoResult.pages n2 := by
    rw [← hres1, hinfo, hres2]
  injection hn with hn
  subst hn
  rw [ho1, ho2]
  exact ⟨rfl, rfl⟩

/-- Witness for C9: the same 2-page toolchain behaviour twice. -/
theorem C9_identical_runs_witness :
    List.range' 1 2 = List.range' 1 2
    ∧ (List.range' 1 2).length = (List.range' 1 2).length :=
  C9_identical_runs ⟨.pages 2, fun _ => false, false⟩
    ⟨.pages 2, fun _ => false, false⟩ 100 200 90
    (List.range' 1 2) (List.range' 1 2) rfl (by decide) (by decide)

/-- In any run of `main`, the recorded render and save calls are either
none (the upload was rejected) or exactly those of the pipeline. -/
theorem main_calls_sub (env : Env) (fileSize dpi quality : Nat) :
    ((main env fileSize dpi quality).renderCalls = []
      ∧ (main env fileSize dpi quality).saveCalls = [])
    ∨ ((main env fileSize dpi quality).renderCalls =
          (rasterise_streaming env dpi quality true).1.renderCalls
      ∧ (main env fileSize dpi quality).saveCalls =
          (rasterise_streaming env dpi quality true).1.saveCalls) := by
  unfold main
  by_cases hs : MAX_FILE_SIZE < fileSize
  · left; rw [if_pos hs]; exact ⟨rfl, rfl⟩
  · right
    rw [if_neg hs]
    rcases hr : rasterise_streaming env dpi quality true with ⟨t, err⟩
    cases err with
    | some e => simp [hr]
    | none =>
        rcases hb : rebuild_pdf env t.jpegPaths with ⟨o, rem⟩
        cases o <;> simp [hr, hb]

/-- Counterexample to **C5** as stated: the pipeline core performs no
validation of `dpi` or `quality` — calling it with `dpi = 1000`
(outside 72–600) and `quality = 101` (outside 0–100) passes both values
straight through to the rendering and encoding calls. -/
theorem C5_counterexample :
    (rasterise_streaming ⟨.pages 1, fun _ => false, false⟩ 1000 101
        false).1.renderCalls = [⟨1, 1, 1000⟩]
    ∧ (rasterise_streaming ⟨.pages 1, fun _ => false, false⟩ 1000 101
        false).1.saveCalls = [⟨1, 101⟩]
    ∧ ¬(1000 ≤ 600) ∧ ¬(101 ≤ 100) :=
  ⟨rfl, rfl, by decide, by decide⟩

/-- **C5 amended**: the core performs no validation; the only bound
enforcement is the UI sliders, which admit `dpi ∈ [72, 600]` and
`quality ∈ [50, 100]`.  For every run whose `dpi`/`quality` come from
those sliders, the values reaching rendering/encoding lie within the
spec's bounds (`dpi` within 72–600, `quality` within 0–100). -/
theorem C5_slider_bounds (env : Env) (fileSize dpi quality : Nat)
    (hd1 : 72 ≤ dpi) (hd2 : dpi ≤ 600)
    (_hq1 : 50 ≤ quality) (hq2 : quality ≤ 100) :
    (∀ c ∈ (main env fileSize dpi quality).renderCalls,
        72 ≤ c.dpi ∧ c.dpi ≤ 600)
    ∧ (∀ sc ∈ (main env fileSize dpi quality).saveCalls,
        0 ≤ sc.quality ∧ sc.quality ≤ 100) := by
  rcases rasterise_trace_shape env dpi quality true with ⟨l, m, hr, hb, hsv⟩
  rcases main_calls_sub env fileSize dpi quality with ⟨h1, h2⟩ | ⟨h1, h2⟩
  · rw [h1, h2]
    exact ⟨by simp, by simp⟩
  · constructor
    · intro c hc
      rw [h1, hr] at hc
      rcases List.mem_map.mp hc with ⟨p, _, rfl⟩
      exact ⟨hd1, hd2⟩
    · intro sc hsc
      rw [h2, hsv] at hsc
      rcases List.mem_map.mp hsc with ⟨p, _, rfl⟩
      exact ⟨Nat.zero_le _, hq2⟩

/-- Witness for the amended C5 at the default slider values. -/
theorem C5_slider_bounds_witness :
    (∀ c ∈ (main ⟨.pages 1, fun _ => false, false⟩ 100 200 90).renderCalls,
        72 ≤ c.dpi ∧ c.dpi ≤ 600)
    ∧ (∀ sc ∈ (main ⟨.pages 1, fun _ => false, false⟩ 100 200 90).saveCalls,
        0 ≤ sc.quality ∧ sc.quality ≤ 100) :=
  C5_slider_bounds ⟨.pages 1, fun _ => false, false⟩ 100 200 90
    (by decide) (by decide) (by decide) (by decide)

end StreamApp
